import Mathlib

/-!
Formal model of the `ivan-14-dev/auth` Django authentication service
(`app/accounts/{models,serializers,views,permissions,utils,signals}.py`),
as a shallow embedding: users, the JWT token service state, and the API
operations are Lean functions over explicit state.

Conventions:
- time is a `Nat` (seconds) for service operations and an `Int` for the
  rate limiter (so `now - window` needs no truncation);
- password hashing is Django's external collaborator; it is modelled as an
  injective tagging function `hashPassword` (the code never stores or
  compares plaintext, only `set_password` / `check_password`);
- French message strings are taken verbatim from the source; the
  character `’` stands for the apostrophe used in the source literals.
-/

namespace Auth

/-- Roles, from `models.User.Role` (`admin`, `moderator`, `user`). -/
inductive Role
  | admin
  | moderator
  | user
deriving DecidableEq, Repr

/-- User record, from `models.User`: unique id, unique username, unique
email (the login identifier), hashed secret, role (default `user`), the
three status flags (defaults: active, not blocked, not verified) and
`last_login`.  Profile fields (phone, address, avatar, ...) carry no
claim-relevant behaviour and are omitted. -/
structure User where
  id : Nat
  username : String
  email : String
  passwordHash : String
  role : Role
  is_active : Bool
  is_blocked : Bool
  is_email_verified : Bool
  last_login : Option Nat
deriving DecidableEq, Repr

/-- Django's one-way password hasher (external collaborator used by
`User.set_password`): modelled as an injective tag. -/
def hashPassword (p : String) : String := "pbkdf2_sha256$" ++ p

/-- Modelled from `django.contrib.auth` `User.check_password`: compare the
stored hash with the hash of the presented plaintext. -/
def checkPassword (u : User) (p : String) : Bool := u.passwordHash == hashPassword p

/-- Refresh token, from the simplejwt collaborator: a signed token carrying
a unique `jti`, the owning user id and its issue time
(`REFRESH_TOKEN_LIFETIME = 7 days`, `settings.SIMPLE_JWT`). -/
structure RefreshTok where
  jti : Nat
  userId : Nat
  issuedAt : Nat
deriving DecidableEq, Repr

/-- Access token: signed, self-contained, user id claim plus issue time
(`ACCESS_TOKEN_LIFETIME = 60 minutes`). -/
structure AccessTok where
  userId : Nat
  issuedAt : Nat
deriving DecidableEq, Repr

/-- State of the token service: outstanding (issued) refresh tokens, the
blacklist of revoked `jti`s (`rest_framework_simplejwt.token_blacklist`),
and the next fresh `jti`. -/
structure TokenState where
  outstanding : List RefreshTok
  blacklist : List Nat
  nextJti : Nat
deriving DecidableEq, Repr

/-- Refresh token lifetime in seconds (7 days, `settings.SIMPLE_JWT`). -/
def refreshLifetime : Nat := 7 * 24 * 60 * 60

/-- Issue a fresh access/refresh pair for a user id
(`RefreshToken.for_user` in `views.LoginView.post`). -/
def issueTokens (uid now : Nat) (ts : TokenState) : AccessTok × RefreshTok × TokenState :=
  let rt : RefreshTok := ⟨ts.nextJti, uid, now⟩
  (⟨uid, now⟩, rt,
    { ts with outstanding := rt :: ts.outstanding, nextJti := ts.nextJti + 1 })

/-- Whole-service state: the user table (Credential Store) and the token
service state. -/
structure ServiceState where
  users : List User
  tokens : TokenState
deriving DecidableEq, Repr

/-- Lookup by email (`User.objects.get(email=...)` /
`User.objects.filter(email=...)`). -/
def findByEmail (users : List User) (e : String) : Option User :=
  users.find? (fun u => u.email == e)

/-- Lookup by primary key (`User.objects.get(id=...)`). -/
def findById (users : List User) (i : Nat) : Option User :=
  users.find? (fun u => u.id == i)

/-- Persist a modified user record (`user.save()`): replace the record
with the same id. -/
def updateUser : List User → User → List User
  | [], _ => []
  | v :: rest, u => if v.id == u.id then u :: rest else v :: updateUser rest u

/-- Password validation per `settings.AUTH_PASSWORD_VALIDATORS`:
`MinimumLengthValidator(min_length=8)` and `NumericPasswordValidator`.
(`CommonPasswordValidator` and `UserAttributeSimilarityValidator` depend
on external data not in the repository and are not modelled; no claim
depends on them.) -/
def validatePassword (p : String) : Bool :=
  decide (8 ≤ p.length) && !(p.toList.all Char.isDigit)

/-- Wellformedness of an email per DRF's `EmailField` (external
collaborator); modelled as containing an `@`. -/
def validEmail (e : String) : Bool := e.toList.contains '@'

/- ==================== permissions.py ==================== -/

/-- From `permissions.IsAdmin.has_permission`: the authenticated user's
role equals `admin`. -/
def isAdminPerm (u : User) : Bool := u.role == Role.admin

/-- From `permissions.IsModerator.has_permission`: role in
`[moderator, admin]`. -/
def isModeratorPerm (u : User) : Bool :=
  u.role == Role.moderator || u.role == Role.admin

/-- From `permissions.IsStaff.has_permission`: role in
`[moderator, admin]`. -/
def isStaffPerm (u : User) : Bool :=
  u.role == Role.moderator || u.role == Role.admin

/-- From `permissions.IsActive.has_permission`: `is_active`. -/
def isActivePerm (u : User) : Bool := u.is_active

/-- From `permissions.IsNotBlocked.has_permission`: `not is_blocked`. -/
def isNotBlockedPerm (u : User) : Bool := !u.is_blocked

/-- From `permissions.IsVerified.has_permission`: `is_email_verified`. -/
def isVerifiedPerm (u : User) : Bool := u.is_email_verified

/- ==================== messages (source string literals) ==================== -/

def loginMsgMissing : String := "Les deux champs email et mot de passe sont requis."
def loginMsgInvalid : String := "Email ou mot de passe invalide."
def loginMsgInactive : String := "Le compte utilisateur est désactivé."
def loginMsgBlocked : String :=
  "Le compte utilisateur est bloqué. Veuillez contacter le support."
def resetSentMsg : String := "L’email de réinitialisation a été envoyé."
def verifySentMsg : String := "L’email de vérification a été envoyé."
def alreadyVerifiedMsg : String := "L’email est déjà vérifié."
def pwChangedMsg : String := "Mot de passe changé avec succès."
def resetConfirmOkMsg : String := "Le mot de passe a été réinitialisé avec succès."
def userNotFoundMsg : String := "Utilisateur non trouvé."
def adminRequiredMsg : String :=
  "Vous devez être administrateur pour effectuer cette action."
def oldPwWrongMsg : String := "Le mot de passe actuel est incorrect."
def pwMismatchMsg : String := "Les mots de passe ne correspondent pas."
def newPwMismatchMsg : String := "Les nouveaux mots de passe ne correspondent pas."
def pwWeakMsg : String := "Mot de passe invalide."
def emailInvalidMsg : String := "Saisissez une adresse e-mail valide."
def notAuthenticatedMsg : String := "Informations d’authentification non fournies."

/-- Generic HTTP response: status code plus the `detail` body. -/
structure Resp where
  status : Nat
  detail : String
deriving DecidableEq, Repr

/- ==================== login ==================== -/

/-- Modelled from Django's default `ModelBackend.authenticate` (no
`AUTHENTICATION_BACKENDS` override in `settings.py`): look the user up by
`USERNAME_FIELD = email`, verify the password, and reject users failing
`user_can_authenticate` (that is, inactive users). -/
def authenticate (users : List User) (email password : String) : Option User :=
  match findByEmail users email with
  | none => none
  | some u => if checkPassword u password && u.is_active then some u else none

/-- Result of `LoginView.post`: on success the serialized user plus the
new token pair, otherwise a status/detail error response. -/
inductive LoginResult
  | ok (u : User) (access : AccessTok) (refresh : RefreshTok)
  | err (status : Nat) (detail : String)
deriving DecidableEq, Repr

/-- From `serializers.UserLoginSerializer.validate` and
`views.LoginView.post`: missing fields, failed `authenticate`, inactive or
blocked accounts are serializer errors, which the view returns with
status 401 (`HTTP_401_UNAUTHORIZED`); on success the view issues a token
pair with `RefreshToken.for_user` and updates `last_login`. -/
def login (st : ServiceState) (now : Nat) (email password : String) :
    LoginResult × ServiceState :=
  if email == "" || password == "" then (.err 401 loginMsgMissing, st)
  else
    match authenticate st.users email password with
    | none => (.err 401 loginMsgInvalid, st)
    | some u =>
      if !u.is_active then (.err 401 loginMsgInactive, st)
      else if u.is_blocked then (.err 401 loginMsgBlocked, st)
      else
        let (a, r, ts) := issueTokens u.id now st.tokens
        let u' := { u with last_login := some now }
        (.ok u' a r, { users := updateUser st.users u', tokens := ts })

/- ==================== token refresh / logout ==================== -/

/-- Result of the token refresh endpoint: a new access/refresh pair, or
an error status. -/
inductive RefreshResult
  | ok (access : AccessTok) (refresh : RefreshTok)
  | err (status : Nat)
deriving DecidableEq, Repr

/-- Modelled from the spec: the Token Service `refresh` operation (§4.2).
The route `auth/token/refresh/` (`accounts/urls.py`) is served by the
external `rest_framework_simplejwt.views.TokenRefreshView`, whose code is
not in the repository; per the spec it fails (uniformly, as
`Unauthorized`) when the presented token is invalid (never issued),
expired, or blacklisted, and otherwise — rotation being enabled
(`ROTATE_REFRESH_TOKENS`, `BLACKLIST_AFTER_ROTATION` in `settings.py`) —
blacklists the presented token and issues a new pair for the token's user
id claim.  No user status flag is consulted. -/
def refreshTokenState (ts : TokenState) (now : Nat) (tok : RefreshTok) :
    RefreshResult × TokenState :=
  if !(ts.outstanding.contains tok) then (.err 401, ts)
  else if decide (tok.issuedAt + refreshLifetime ≤ now) then (.err 401, ts)
  else if ts.blacklist.contains tok.jti then (.err 401, ts)
  else
    let ts' := { ts with blacklist := tok.jti :: ts.blacklist }
    let (a, r, ts'') := issueTokens tok.userId now ts'
    (.ok a r, ts'')

/-- The token refresh operation lifted to the whole service state; it
reads and writes only the token-service state (the user table is never
consulted). -/
def refreshOp (st : ServiceState) (now : Nat) (tok : RefreshTok) :
    RefreshResult × ServiceState :=
  let (r, ts) := refreshTokenState st.tokens now tok
  (r, { st with tokens := ts })

/-- From `views.LogoutView.post` with the external
`RefreshToken(...).blacklist()`: validate the presented refresh token
(signature, expiry, not already blacklisted) and add its `jti` to the
blacklist; the actor must be authenticated. -/
def logout (st : ServiceState) (actorId : Nat) (now : Nat) (tok : RefreshTok) :
    Resp × ServiceState :=
  match findById st.users actorId with
  | none => (⟨401, notAuthenticatedMsg⟩, st)
  | some _ =>
    if !(st.tokens.outstanding.contains tok) then (⟨400, "Token invalide."⟩, st)
    else if decide (tok.issuedAt + refreshLifetime ≤ now) then (⟨400, "Token invalide."⟩, st)
    else if st.tokens.blacklist.contains tok.jti then (⟨400, "Token invalide."⟩, st)
    else
      (⟨205, "Déconnexion réussie."⟩,
        { st with tokens := { st.tokens with blacklist := tok.jti :: st.tokens.blacklist } })

/- ==================== password change ==================== -/

/-- From `views.PasswordChangeView.post` (permissions `IsAuthenticated`,
`IsActive`, `IsNotBlocked`) and `serializers.PasswordChangeSerializer`:
check the old password, require matching and valid new passwords, then
`user.set_password(new)` and `user.save()`.  Nothing else is touched: in
particular `utils.invalidate_user_tokens` is never called, so the token
state is left unchanged. -/
def changePassword (st : ServiceState) (actorId : Nat)
    (oldPw newPw confirmPw : String) : Resp × ServiceState :=
  match findById st.users actorId with
  | none => (⟨401, notAuthenticatedMsg⟩, st)
  | some u =>
    if !(isActivePerm u && isNotBlockedPerm u) then (⟨403, "Interdit."⟩, st)
    else if !checkPassword u oldPw then (⟨400, oldPwWrongMsg⟩, st)
    else if newPw != confirmPw then (⟨400, newPwMismatchMsg⟩, st)
    else if !validatePassword newPw then (⟨400, pwWeakMsg⟩, st)
    else
      (⟨200, pwChangedMsg⟩,
        { st with users := updateUser st.users { u with passwordHash := hashPassword newPw } })

/- ==================== admin update ==================== -/

/-- Partial update body accepted by `serializers.AdminUserUpdateSerializer`
(fields `role`, `is_active`, `is_blocked`; the view passes
`partial=True`). -/
structure AdminUpdateInput where
  role : Option Role
  is_active : Option Bool
  is_blocked : Option Bool
deriving DecidableEq, Repr

/-- Apply the partial update (`serializer.save()` on a `ModelSerializer`):
each provided field overwrites the stored one. -/
def applyAdminUpdate (u : User) (inp : AdminUpdateInput) : User :=
  { u with
    role := inp.role.getD u.role
    is_active := inp.is_active.getD u.is_active
    is_blocked := inp.is_blocked.getD u.is_blocked }

/-- From `views.AdminUserUpdateView.put` (permissions `IsAuthenticated`,
`IsAdmin`): look the target up by id (404 if absent) and save the partial
update.  The `signals.user_post_save` receiver only writes log lines on a
role/active/blocked change; no token revocation happens
(`utils.invalidate_user_tokens` has no caller), and there is no special
case for `targetId = actorId`. -/
def adminUpdate (st : ServiceState) (actorId targetId : Nat)
    (inp : AdminUpdateInput) : Resp × ServiceState :=
  match findById st.users actorId with
  | none => (⟨401, notAuthenticatedMsg⟩, st)
  | some actor =>
    if !isAdminPerm actor then (⟨403, adminRequiredMsg⟩, st)
    else
      match findById st.users targetId with
      | none => (⟨404, userNotFoundMsg⟩, st)
      | some target =>
        (⟨200, "ok"⟩, { st with users := updateUser st.users (applyAdminUpdate target inp) })

/- ==================== password reset / email verification ==================== -/

/-- From `views.PasswordResetRequestView.post`: with a well-formed email,
the existing-user branch generates `secrets.token_urlsafe(32)` (the value
is never stored and no email is sent — the `try` body returns directly)
and the `User.DoesNotExist` branch returns the very same response; both
are 200 with `resetSentMsg`, and the state is unchanged. -/
def passwordResetRequest (st : ServiceState) (email : String) : Resp × ServiceState :=
  if !validEmail email then (⟨400, emailInvalidMsg⟩, st)
  else
    match findByEmail st.users email with
    | some _ => (⟨200, resetSentMsg⟩, st)
    | none => (⟨200, resetSentMsg⟩, st)

/-- From `views.PasswordResetConfirmView.post` and
`serializers.PasswordResetConfirmSerializer.validate`: the serializer only
checks that the two new passwords match and pass `validate_password`; the
`token` and `user_id` fields are never looked up anywhere, and on success
the view returns 200 without modifying any user.  The state is returned
unchanged on every path. -/
def passwordResetConfirm (st : ServiceState) (token : String) (userId : Nat)
    (newPw confirmPw : String) : Resp × ServiceState :=
  if newPw != confirmPw then (⟨400, pwMismatchMsg⟩, st)
  else if !validatePassword newPw then (⟨400, pwWeakMsg⟩, st)
  else (⟨200, resetConfirmOkMsg⟩, st)

/-- From `views.EmailVerificationRequestView.post`: an existing,
already-verified user gets 200 with `alreadyVerifiedMsg`; an existing
unverified user gets 200 with `verifySentMsg` (the generated token is
dropped, as in the reset request); an unknown email gets 200 with
`verifySentMsg`. -/
def emailVerificationRequest (st : ServiceState) (email : String) : Resp × ServiceState :=
  if !validEmail email then (⟨400, emailInvalidMsg⟩, st)
  else
    match findByEmail st.users email with
    | some u =>
      if u.is_email_verified then (⟨200, alreadyVerifiedMsg⟩, st)
      else (⟨200, verifySentMsg⟩, st)
    | none => (⟨200, verifySentMsg⟩, st)

/- ==================== registration ==================== -/

/-- Registration body accepted by `serializers.UserRegistrationSerializer`
(profile fields omitted); `role` is an ordinary optional model field of
the serializer, supplied by the caller. -/
structure RegistrationInput where
  username : String
  email : String
  password : String
  password_confirm : String
  role : Option Role
deriving DecidableEq, Repr

/-- Result of `views.RegisterView.post`: 201 with the created user, or a
validation error. -/
inductive RegisterResult
  | created (u : User)
  | err (status : Nat) (detail : String)
deriving DecidableEq, Repr

/-- From `views.RegisterView.post` (permission `IsNotAuthenticated`: the
route is public) and `serializers.UserRegistrationSerializer`: field
validation (well-formed unique email, unique username, `min_length=8`),
`validate` (passwords match, `validate_password`), then `create` builds
`User(**validated_data)` — so with the caller-supplied `role` when one
was given, else the model default `Role.USER` — hashes the password and
saves.  Model defaults: `is_active=True`, `is_blocked=False`,
`is_email_verified=False`. -/
def register (st : ServiceState) (newId : Nat) (inp : RegistrationInput) :
    RegisterResult × ServiceState :=
  if !validEmail inp.email then (.err 400 emailInvalidMsg, st)
  else if (findByEmail st.users inp.email).isSome then
    (.err 400 "Un utilisateur avec cet email existe déjà.", st)
  else if st.users.any (fun u => u.username == inp.username) then
    (.err 400 "Un utilisateur avec ce nom existe déjà.", st)
  else if inp.password != inp.password_confirm then
    (.err 400 pwMismatchMsg, st)
  else if !validatePassword inp.password then (.err 400 pwWeakMsg, st)
  else
    let u : User :=
      { id := newId
        username := inp.username
        email := inp.email
        passwordHash := hashPassword inp.password
        role := inp.role.getD Role.user
        is_active := true
        is_blocked := false
        is_email_verified := false
        last_login := none }
    (.created u, { st with users := u :: st.users })

/- ==================== traces / reachability ==================== -/

/-- One inbound API request, for reasoning about reachable states. -/
inductive Op
  | opRegister (newId : Nat) (inp : RegistrationInput)
  | opLogin (now : Nat) (email password : String)
  | opRefresh (now : Nat) (tok : RefreshTok)
  | opLogout (actorId now : Nat) (tok : RefreshTok)
  | opChangePassword (actorId : Nat) (oldPw newPw confirmPw : String)
  | opAdminUpdate (actorId targetId : Nat) (inp : AdminUpdateInput)
  | opResetRequest (email : String)
  | opResetConfirm (token : String) (userId : Nat) (newPw confirmPw : String)
  | opVerifyRequest (email : String)
deriving Repr

/-- State transition of one request (the response is dropped). -/
def stepOp (st : ServiceState) : Op → ServiceState
  | .opRegister newId inp => (register st newId inp).2
  | .opLogin now e p => (login st now e p).2
  | .opRefresh now tok => (refreshOp st now tok).2
  | .opLogout a now tok => (logout st a now tok).2
  | .opChangePassword a o n c => (changePassword st a o n c).2
  | .opAdminUpdate a t inp => (adminUpdate st a t inp).2
  | .opResetRequest e => (passwordResetRequest st e).2
  | .opResetConfirm t uid n c => (passwordResetConfirm st t uid n c).2
  | .opVerifyRequest e => (emailVerificationRequest st e).2

/-- Run a sequence of requests. -/
def run (st : ServiceState) (ops : List Op) : ServiceState := ops.foldl stepOp st

/-- Bootstrap state: one superuser (created outside the API, e.g. by
Django's `createsuperuser`), no tokens. -/
def initState : ServiceState :=
  { users :=
      [{ id := 0, username := "root", email := "root@x.com",
         passwordHash := hashPassword "Aa1!root", role := Role.admin,
         is_active := true, is_blocked := false, is_email_verified := true,
         last_login := none }]
    tokens := ⟨[], [], 0⟩ }

/- ==================== rate limiter (utils.RateLimiter) ==================== -/

/-- State of `utils.RateLimiter`: `max_requests` (default 5),
`time_window` in seconds (default 60), and the per-key dict of request
timestamps, modelled as an association list.  Timestamps are `Int`
seconds. -/
structure RateLimiter where
  max_requests : Nat
  time_window : Nat
  requests : List (String × List Int)
deriving DecidableEq, Repr

/-- Read a key's timestamp list (`self.requests[key]`, defaulting to the
empty list as after the `if key not in self.requests` initialisation). -/
def getReqs (rl : RateLimiter) (key : String) : List Int :=
  match rl.requests.lookup key with
  | some l => l
  | none => []

/-- Write a key's timestamp list back into the dict. -/
def setReqs : List (String × List Int) → String → List Int → List (String × List Int)
  | [], k, v => [(k, v)]
  | (k', v') :: rest, k, v =>
    if k' == k then (k, v) :: rest else (k', v') :: setReqs rest k v

/-- From `utils.RateLimiter.is_rate_limited`: compute
`window_start = now - time_window`, keep only timestamps strictly greater
than `window_start`, store the pruned list; if its length has reached
`max_requests`, report limited without recording, otherwise append `now`
and report not limited. -/
def is_rate_limited (rl : RateLimiter) (now : Int) (key : String) :
    Bool × RateLimiter :=
  let window_start : Int := now - rl.time_window
  let kept := (getReqs rl key).filter (fun t => window_start < t)
  if rl.max_requests ≤ kept.length then
    (true, { rl with requests := setReqs rl.requests key kept })
  else
    (false, { rl with requests := setReqs rl.requests key (kept ++ [now]) })

/-- The spec's `admitKey` view of the limiter: admitted iff not rate
limited. -/
def admitKey (rl : RateLimiter) (now : Int) (key : String) : Bool × RateLimiter :=
  let (limited, rl') := is_rate_limited rl now key
  (!limited, rl')

/-- From `utils.RateLimiter.get_remaining_requests`: read-only count of
requests still allowed for the key. -/
def get_remaining_requests (rl : RateLimiter) (now : Int) (key : String) : Nat :=
  match rl.requests.lookup key with
  | none => rl.max_requests
  | some l =>
    rl.max_requests - ((l.filter (fun t => now - (rl.time_window : Int) < t)).length)

/-- Run `admitKey` over a list of times for one key, collecting the
results. -/
def runAdmits (rl : RateLimiter) (key : String) : List Int → List Bool × RateLimiter
  | [] => ([], rl)
  | t :: ts =>
    let (b, rl') := admitKey rl t key
    let (bs, rl'') := runAdmits rl' key ts
    (b :: bs, rl'')

/- ==================== concrete example states ==================== -/

/-- Registration body for an ordinary user `bob`. -/
def regBob : RegistrationInput := ⟨"bob", "b@x.com", "Aa1!bbbb", "Aa1!bbbb", none⟩

/-- Reachable state: `bob` registers, logs in (receiving refresh token
`⟨0, 1, 0⟩`), then the bootstrap admin blocks him. -/
def exC1_st : ServiceState :=
  run initState
    [ .opRegister 1 regBob,
      .opLogin 0 "b@x.com" "Aa1!bbbb",
      .opAdminUpdate 0 1 ⟨none, none, some true⟩ ]

/-- A lone user whose password hash is that of `Aa1!oldp`. -/
def exC2_st : ServiceState :=
  { users :=
      [{ id := 1, username := "bob", email := "b@x.com",
         passwordHash := hashPassword "Aa1!oldp", role := Role.user,
         is_active := true, is_blocked := false, is_email_verified := false,
         last_login := none }]
    tokens := ⟨[], [], 0⟩ }

/-- An active, unblocked user holding the live refresh token `⟨0, 1, 0⟩`. -/
def exC3_st : ServiceState :=
  { users :=
      [{ id := 1, username := "bob", email := "b@x.com",
         passwordHash := hashPassword "Aa1!oldp", role := Role.user,
         is_active := true, is_blocked := false, is_email_verified := false,
         last_login := some 0 }]
    tokens := ⟨[⟨0, 1, 0⟩], [], 1⟩ }

/-- An admin plus an ordinary user who holds the live refresh token
`⟨0, 1, 0⟩`. -/
def exC4_st : ServiceState :=
  { users :=
      [{ id := 0, username := "root", email := "root@x.com",
         passwordHash := hashPassword "Aa1!root", role := Role.admin,
         is_active := true, is_blocked := false, is_email_verified := true,
         last_login := none },
       { id := 1, username := "bob", email := "b@x.com",
         passwordHash := hashPassword "Aa1!bbbb", role := Role.user,
         is_active := true, is_blocked := false, is_email_verified := false,
         last_login := some 0 }]
    tokens := ⟨[⟨0, 1, 0⟩], [], 1⟩ }

/-- A state holding one user whose email is already verified. -/
def exC5_st : ServiceState :=
  { users :=
      [{ id := 1, username := "vera", email := "v@x.com",
         passwordHash := hashPassword "Aa1!vvvv", role := Role.user,
         is_active := true, is_blocked := false, is_email_verified := true,
         last_login := none }]
    tokens := ⟨[], [], 0⟩ }

/-- An active but blocked user with password `Aa1!bbbb`. -/
def exC6_st : ServiceState :=
  { users :=
      [{ id := 1, username := "bob", email := "b@x.com",
         passwordHash := hashPassword "Aa1!bbbb", role := Role.user,
         is_active := true, is_blocked := true, is_email_verified := false,
         last_login := none }]
    tokens := ⟨[], [], 0⟩ }

/-- A limiter with capacity 1 per 60 s whose key `k` recorded one request
at time 0. -/
def exC7_rl : RateLimiter := ⟨1, 60, [("k", [0])]⟩

/-- A blocked (but active, verified) admin. -/
def exC8_user : User :=
  { id := 0, username := "root", email := "root@x.com",
    passwordHash := hashPassword "Aa1!root", role := Role.admin,
    is_active := true, is_blocked := true, is_email_verified := true,
    last_login := none }

/-- A blocked admin plus an ordinary target user. -/
def exC8_st : ServiceState :=
  { users :=
      [exC8_user,
       { id := 1, username := "bob", email := "b@x.com",
         passwordHash := hashPassword "Aa1!bbbb", role := Role.user,
         is_active := true, is_blocked := false, is_email_verified := false,
         last_login := none }]
    tokens := ⟨[], [], 0⟩ }

/-- A lone (unblocked) admin. -/
def exC9_st : ServiceState :=
  { users :=
      [{ id := 0, username := "root", email := "root@x.com",
         passwordHash := hashPassword "Aa1!root", role := Role.admin,
         is_active := true, is_blocked := false, is_email_verified := true,
         last_login := none }]
    tokens := ⟨[], [], 0⟩ }

/-- Registration body that supplies `role = admin`. -/
def exC10_inp : RegistrationInput :=
  ⟨"eve", "e@x.com", "Aa1!eeee", "Aa1!eeee", some Role.admin⟩

/-- The user that registering `exC10_inp` creates. -/
def exC10_user : User :=
  { id := 1, username := "eve", email := "e@x.com",
    passwordHash := hashPassword "Aa1!eeee", role := Role.admin,
    is_active := true, is_blocked := false, is_email_verified := false,
    last_login := none }

/-- An active, unblocked user `bob` holding the live refresh token
`⟨0, 1, 0⟩` (witness data). -/
def exC1w_st : ServiceState :=
  { users :=
      [{ id := 1, username := "bob", email := "b@x.com",
         passwordHash := hashPassword "Aa1!oldp", role := Role.user,
         is_active := true, is_blocked := false, is_email_verified := false,
         last_login := some 0 }]
    tokens := ⟨[⟨0, 1, 0⟩], [], 1⟩ }

/-- The user record the login at time 7 on `exC1w_st` returns. -/
def exC1w_user : User :=
  { id := 1, username := "bob", email := "b@x.com",
    passwordHash := hashPassword "Aa1!oldp", role := Role.user,
    is_active := true, is_blocked := false, is_email_verified := false,
    last_login := some 7 }

/-- The state `exC3_st` after the password change to `Aa1!newp`. -/
def exC3_stAfter : ServiceState :=
  { users :=
      [{ id := 1, username := "bob", email := "b@x.com",
         passwordHash := hashPassword "Aa1!newp", role := Role.user,
         is_active := true, is_blocked := false, is_email_verified := false,
         last_login := some 0 }]
    tokens := ⟨[⟨0, 1, 0⟩], [], 1⟩ }

/-- The admin record inside `exC4_st`. -/
def exC4_admin : User :=
  { id := 0, username := "root", email := "root@x.com",
    passwordHash := hashPassword "Aa1!root", role := Role.admin,
    is_active := true, is_blocked := false, is_email_verified := true,
    last_login := none }

/-- The target user record inside `exC4_st`. -/
def exC4_target : User :=
  { id := 1, username := "bob", email := "b@x.com",
    passwordHash := hashPassword "Aa1!bbbb", role := Role.user,
    is_active := true, is_blocked := false, is_email_verified := false,
    last_login := some 0 }

/-- The blocked user record inside `exC6_st`. -/
def exC6_user : User :=
  { id := 1, username := "bob", email := "b@x.com",
    passwordHash := hashPassword "Aa1!bbbb", role := Role.user,
    is_active := true, is_blocked := true, is_email_verified := false,
    last_login := none }

/-- A moderator record (witness data for the staff-denial check). -/
def exC8_mod : User :=
  { id := 2, username := "mia", email := "m@x.com",
    passwordHash := hashPassword "Aa1!mmmm", role := Role.moderator,
    is_active := true, is_blocked := false, is_email_verified := true,
    last_login := none }

/-- A state whose only principal is the moderator `exC8_mod`. -/
def exC8m_st : ServiceState := { users := [exC8_mod], tokens := ⟨[], [], 0⟩ }

/-- The admin record inside `exC9_st`. -/
def exC9_admin : User :=
  { id := 0, username := "root", email := "root@x.com",
    passwordHash := hashPassword "Aa1!root", role := Role.admin,
    is_active := true, is_blocked := false, is_email_verified := true,
    last_login := none }

/- ==================== helper lemmas ==================== -/

/-- A user found by `findById` carries the id it was looked up under. -/
theorem findById_some_id {us : List User} {i : Nat} {u : User}
    (h : findById us i = some u) : u.id = i := by
  have := List.find?_some h
  simpa using this

/-- After saving a record whose id already occurs in the table, looking
that id up returns the saved record. -/
theorem findById_updateUser {us : List User} {i : Nat} {v u : User}
    (hv : findById us i = some v) (hu : u.id = i) :
    findById (updateUser us u) i = some u := by
  induction us with
  | nil => simp [findById] at hv
  | cons w rest ih =>
    by_cases hw : w.id = i
    · have hwu : (w.id == u.id) = true := by simp [hw, hu]
      have hui : (u.id == i) = true := by simp [hu]
      simp [updateUser, hwu, findById, List.find?_cons, hui]
    · have hwi : (w.id == i) = false := by simp; exact hw
      have hv' : findById rest i = some v := by
        have h0 := hv
        simp only [findById, List.find?_cons, hwi] at h0
        simpa [findById] using h0
      have hwu : (w.id == u.id) = false := by
        simp [hu]; exact hw
      have h1 := ih hv'
      simp only [updateUser, hwu, if_false, Bool.false_eq_true]
      simp only [findById, List.find?_cons, hwi]
      simpa [findById] using h1

/-- Looking up a key right after `setReqs` wrote it returns the written
list. -/
theorem lookup_setReqs (m : List (String × List Int)) (k : String) (v : List Int) :
    (setReqs m k v).lookup k = some v := by
  induction m with
  | nil => simp [setReqs, List.lookup]
  | cons p rest ih =>
    obtain ⟨k', v'⟩ := p
    by_cases hk : k' = k
    · simp [setReqs, hk, List.lookup]
    · have h1 : (k' == k) = false := by simpa using hk
      have h2 : (k == k') = false := by simp; exact fun h => hk h.symm
      simpa [setReqs, h1, List.lookup, h2] using ih

/- ==================== claim theorems ==================== -/

/-- Claim C1 (counterexample): in the reachable state `exC1_st` — bob
registered, logged in, then was blocked by the admin — bob is blocked,
still holds the previously issued live refresh token `⟨0, 1, 0⟩`, and the
token refresh operation nevertheless returns a fresh access/refresh pair
for him: a blocked user obtains new session tokens. -/
theorem blocked_user_refresh_reachable :
    (findById exC1_st.users 1).map User.is_blocked = some true ∧
    exC1_st.tokens.outstanding.contains ⟨0, 1, 0⟩ = true ∧
    (refreshOp exC1_st 5 ⟨0, 1, 0⟩).fst = RefreshResult.ok ⟨1, 5⟩ ⟨1, 1, 5⟩ := by
  refine ⟨?_, ?_, ?_⟩ <;> decide

/-- Claim C2 (code bug): the password-reset confirmation never changes
the service state — no user's secret is ever updated and no token is
consumed — and it answers 200 (success) to a token that was never issued
by any reset request. -/
theorem passwordResetConfirm_no_validation_no_update :
    (∀ st t uid n c, (passwordResetConfirm st t uid n c).snd = st) ∧
    passwordResetConfirm exC2_st "jamais-emis" 1 "Aa1!cccc" "Aa1!cccc" =
      (⟨200, resetConfirmOkMsg⟩, exC2_st) := by
  constructor
  · intro st t uid n c
    unfold passwordResetConfirm
    split
    · rfl
    · split <;> rfl
  · decide

/-- Claim C3 (counterexample): in `exC3_st` the user changes their
password successfully, yet the refresh token issued before the change is
not blacklisted and a subsequent refresh with it still succeeds. -/
theorem changePassword_leaves_tokens_live :
    (changePassword exC3_st 1 "Aa1!oldp" "Aa1!newp" "Aa1!newp").fst =
      ⟨200, pwChangedMsg⟩ ∧
    (changePassword exC3_st 1 "Aa1!oldp" "Aa1!newp" "Aa1!newp").snd.tokens.blacklist = [] ∧
    (refreshOp (changePassword exC3_st 1 "Aa1!oldp" "Aa1!newp" "Aa1!newp").snd
        5 ⟨0, 1, 0⟩).fst = RefreshResult.ok ⟨1, 5⟩ ⟨1, 1, 5⟩ := by
  refine ⟨?_, ?_, ?_⟩ <;> decide

/-- Claim C4 (counterexample): the admin sets `is_blocked = true` on user
1 and the update succeeds, but no refresh token of the target is
blacklisted — the blacklist stays empty and the pre-existing token still
refreshes. -/
theorem admin_block_does_not_revoke :
    (adminUpdate exC4_st 0 1 ⟨none, none, some true⟩).fst = ⟨200, "ok"⟩ ∧
    (findById (adminUpdate exC4_st 0 1 ⟨none, none, some true⟩).snd.users 1).map
        User.is_blocked = some true ∧
    (adminUpdate exC4_st 0 1 ⟨none, none, some true⟩).snd.tokens.blacklist = [] ∧
    (refreshOp (adminUpdate exC4_st 0 1 ⟨none, none, some true⟩).snd 5 ⟨0, 1, 0⟩).fst =
      RefreshResult.ok ⟨1, 5⟩ ⟨1, 1, 5⟩ := by
  refine ⟨?_, ?_, ?_, ?_⟩ <;> decide

/-- Claim C5 (counterexample): the email-verification request returns a
different success body for an already-verified email than for an unknown
one, so the response does depend on the verification state. -/
theorem verification_request_leaks_verified_state :
    (emailVerificationRequest exC5_st "v@x.com").fst = ⟨200, alreadyVerifiedMsg⟩ ∧
    (emailVerificationRequest exC5_st "z@x.com").fst = ⟨200, verifySentMsg⟩ ∧
    alreadyVerifiedMsg ≠ verifySentMsg := by
  refine ⟨?_, ?_, ?_⟩ <;> decide

/-- Claim C6 (counterexample): a wrong password and a blocked account
both fail with status 401, but with different `detail` bodies, so the
error response is not identical across the failure causes. -/
theorem login_error_bodies_differ :
    (login exC6_st 0 "b@x.com" "wrong-pass").fst = LoginResult.err 401 loginMsgInvalid ∧
    (login exC6_st 0 "b@x.com" "Aa1!bbbb").fst = LoginResult.err 401 loginMsgBlocked ∧
    loginMsgBlocked ≠ loginMsgInvalid := by
  refine ⟨?_, ?_, ?_⟩ <;> decide

/-- Claim C7 (counterexample): with one request recorded at time 0,
capacity 1 and a 60-second window, a call at time 60 is admitted by the
code (the entry at exactly `now - window` is pruned), although under the
claim's rule — drop only entries strictly older than `now - window` — the
remaining count 1 is not below `max_requests = 1`, so the call would have
to be rejected. -/
theorem rate_limiter_prunes_boundary_timestamp :
    (admitKey exC7_rl 60 "k").fst = true ∧
    ¬ (((getReqs exC7_rl "k").filter
          (fun t => (60 : Int) - (exC7_rl.time_window : Int) ≤ t)).length <
        exC7_rl.max_requests) := by
  constructor <;> decide

/-- Claim C8 (counterexample): a blocked admin retains every capability
except `NotBlocked` — the `Admin`, `Active`, `Staff` and `Verified`
checks all pass, and the blocked admin successfully performs the
admin-gated user-update operation. -/
theorem blocked_admin_retains_capabilities :
    exC8_user.is_blocked = true ∧
    isAdminPerm exC8_user = true ∧
    isActivePerm exC8_user = true ∧
    isStaffPerm exC8_user = true ∧
    isVerifiedPerm exC8_user = true ∧
    (adminUpdate exC8_st 0 1 ⟨none, some false, none⟩).fst.status = 200 := by
  refine ⟨?_, ?_, ?_, ?_, ?_, ?_⟩ <;> decide

/-- Claim C9 (counterexample): an admin targets their own account with
`role = user, is_blocked = true`; the admin-update path accepts the
request and the changes take effect — the self-demotion and self-block
are neither rejected nor without effect. -/
theorem admin_self_block_succeeds :
    (adminUpdate exC9_st 0 0 ⟨some Role.user, none, some true⟩).fst = ⟨200, "ok"⟩ ∧
    (findById (adminUpdate exC9_st 0 0 ⟨some Role.user, none, some true⟩).snd.users 0).map
        (fun u => (u.role, u.is_blocked)) = some (Role.user, true) := by
  constructor <;> decide

/-- Claim C10: the public registration endpoint accepts the
caller-supplied `role` field; the concrete input `exC10_inp` with
`role = admin` passes validation, registration succeeds, and the created
user's role is `admin` — the role of a new user is not forced to
`user`. -/
theorem register_accepts_admin_role :
    (register ⟨[], ⟨[], [], 0⟩⟩ 1 exC10_inp).fst = RegisterResult.created exC10_user ∧
    exC10_user.role = Role.admin := by
  constructor <;> decide

/-- Claim C1 (amended): login never returns a token pair for an inactive
or blocked user, but the token refresh operation does not consult the
user table at all — its outcome is the same in any two states with equal
token-service state, whatever the users' flags — so a blocked user
holding a live refresh token still obtains new session tokens. -/
theorem login_active_unblocked_refresh_ignores_flags :
    (∀ st now e p u a r,
        (login st now e p).fst = LoginResult.ok u a r →
        u.is_active = true ∧ u.is_blocked = false) ∧
    (∀ st₁ st₂ : ServiceState, ∀ now tok,
        st₁.tokens = st₂.tokens →
        (refreshOp st₁ now tok).fst = (refreshOp st₂ now tok).fst) := by
  constructor
  · intro st now e p u a r h
    unfold login at h
    split at h
    · simp at h
    · split at h
      · simp at h
      · split at h
        · simp at h
        · split at h
          · simp at h
          · injection h with hu ha hr
            rw [← hu]
            simp_all
  · intro st₁ st₂ now tok hts
    simp [refreshOp, hts]

/-- Claim C1 (witness): the amended theorem applied to a concrete
successful login on `exC1w_st` and to two concrete states sharing a
token-service state. -/
theorem login_refresh_flags_witness :
    (exC1w_user.is_active = true ∧ exC1w_user.is_blocked = false) ∧
    (refreshOp exC1w_st 5 ⟨0, 1, 0⟩).fst =
      (refreshOp { exC1w_st with users := [] } 5 ⟨0, 1, 0⟩).fst :=
  ⟨login_active_unblocked_refresh_ignores_flags.1 exC1w_st 7 "b@x.com" "Aa1!oldp"
      exC1w_user ⟨1, 7⟩ ⟨1, 1, 7⟩ (by decide),
   login_active_unblocked_refresh_ignores_flags.2 exC1w_st
      { exC1w_st with users := [] } 5 ⟨0, 1, 0⟩ rfl⟩

/-- Claim C9 (amended): the admin-update path treats a self-targeting
request like any other — when the acting admin targets their own id, the
update succeeds with 200 and the requested role/active/blocked changes
are applied to the actor's record; there is no self-protection. -/
theorem adminUpdate_self_no_protection :
    ∀ st aid inp actor,
      findById st.users aid = some actor → isAdminPerm actor = true →
      adminUpdate st aid aid inp =
        (⟨200, "ok"⟩, { st with users := updateUser st.users (applyAdminUpdate actor inp) }) := by
  intro st aid inp actor hf hadm
  simp [adminUpdate, hf, hadm]

/-- Claim C9 (witness): the amended theorem applied to the concrete admin
of `exC9_st` blocking and demoting their own account. -/
theorem adminUpdate_self_witness :
    adminUpdate exC9_st 0 0 ⟨some Role.user, none, some true⟩ =
      (⟨200, "ok"⟩,
        { exC9_st with
            users := updateUser exC9_st.users
              (applyAdminUpdate exC9_admin ⟨some Role.user, none, some true⟩) }) :=
  adminUpdate_self_no_protection exC9_st 0 ⟨some Role.user, none, some true⟩
    exC9_admin (by decide) (by decide)

/-- Claim C3 (amended): after a successful password change the actor's
stored secret equals the hash of the new password, but the token-service
state — outstanding refresh tokens and blacklist alike — is exactly what
it was before, so every previously issued refresh token keeps working. -/
theorem changePassword_updates_hash_tokens_unchanged :
    ∀ st aid oldPw newPw confirmPw st' d,
      changePassword st aid oldPw newPw confirmPw = (⟨200, d⟩, st') →
      st'.tokens = st.tokens ∧
      (findById st'.users aid).map User.passwordHash = some (hashPassword newPw) := by
  intro st aid o n c st' d h
  unfold changePassword at h
  split at h
  · simp at h
  · rename_i u hfind
    split at h
    · simp at h
    · split at h
      · simp at h
      · split at h
        · simp at h
        · split at h
          · simp at h
          · have hid : u.id = aid := findById_some_id hfind
            simp only [Prod.mk.injEq, Resp.mk.injEq] at h
            obtain ⟨-, hst⟩ := h
            subst hst
            refine ⟨rfl, ?_⟩
            have hupd :
                findById (updateUser st.users { u with passwordHash := hashPassword n }) aid =
                  some { u with passwordHash := hashPassword n } :=
              findById_updateUser hfind hid
            simp [hupd]

/-- Claim C3 (witness): the amended theorem applied to the concrete
password change on `exC3_st`. -/
theorem changePassword_tokens_unchanged_witness :
    exC3_stAfter.tokens = exC3_st.tokens ∧
    (findById exC3_stAfter.users 1).map User.passwordHash =
      some (hashPassword "Aa1!newp") :=
  changePassword_updates_hash_tokens_unchanged exC3_st 1 "Aa1!oldp" "Aa1!newp"
    "Aa1!newp" exC3_stAfter pwChangedMsg (by decide)

/-- Claim C4 (amended): every admin-update call leaves the token-service
state unchanged — no revocation of the target's refresh tokens ever
happens — and when the actor is an admin and the target exists, the call
succeeds and persists the requested role/active/blocked fields. -/
theorem adminUpdate_sets_flags_no_revocation :
    ∀ st aid tid inp,
      ((adminUpdate st aid tid inp).snd).tokens = st.tokens ∧
      (∀ actor target,
        findById st.users aid = some actor →
        isAdminPerm actor = true →
        findById st.users tid = some target →
        adminUpdate st aid tid inp =
          (⟨200, "ok"⟩,
            { st with users := updateUser st.users (applyAdminUpdate target inp) })) := by
  intro st aid tid inp
  constructor
  · unfold adminUpdate
    split
    · rfl
    · split
      · rfl
      · split <;> rfl
  · intro actor target hfa hadm hft
    simp [adminUpdate, hfa, hadm, hft]

/-- Claim C4 (witness): the amended theorem applied to the concrete
blocking of user 1 by the admin of `exC4_st`. -/
theorem adminUpdate_no_revocation_witness :
    ((adminUpdate exC4_st 0 1 ⟨none, none, some true⟩).snd).tokens = exC4_st.tokens ∧
    adminUpdate exC4_st 0 1 ⟨none, none, some true⟩ =
      (⟨200, "ok"⟩,
        { exC4_st with
            users := updateUser exC4_st.users
              (applyAdminUpdate exC4_target ⟨none, none, some true⟩) }) :=
  ⟨(adminUpdate_sets_flags_no_revocation exC4_st 0 1 ⟨none, none, some true⟩).1,
   (adminUpdate_sets_flags_no_revocation exC4_st 0 1 ⟨none, none, some true⟩).2
      exC4_admin exC4_target (by decide) (by decide) (by decide)⟩

/-- Claim C5 (amended): for every well-formed email the password-reset
request answers 200 with the one fixed body, without touching the state,
whether or not the email belongs to a user; the email-verification
request always answers 200, and answers the fixed "sent" body whenever
the email does not belong to an already-verified user — but an
already-verified email receives a different body (see the
counterexample). -/
theorem reset_request_constant_verify_request_status :
    ∀ st e, validEmail e = true →
      (passwordResetRequest st e).fst = ⟨200, resetSentMsg⟩ ∧
      (passwordResetRequest st e).snd = st ∧
      (emailVerificationRequest st e).fst.status = 200 ∧
      ((findByEmail st.users e).all (fun u => !u.is_email_verified) = true →
        (emailVerificationRequest st e).fst = ⟨200, verifySentMsg⟩) := by
  intro st e he
  refine ⟨?_, ?_, ?_, ?_⟩
  · simp only [passwordResetRequest, he]
    rcases findByEmail st.users e with _ | u <;> simp
  · simp only [passwordResetRequest, he]
    rcases findByEmail st.users e with _ | u <;> simp
  · simp only [emailVerificationRequest, he]
    rcases findByEmail st.users e with _ | u
    · simp
    · by_cases hv : u.is_email_verified = true <;> simp [hv]
  · intro hall
    simp only [emailVerificationRequest, he]
    rcases hf : findByEmail st.users e with _ | u
    · simp
    · rw [hf] at hall
      simp only [Option.all_some] at hall
      have : u.is_email_verified = false := by simpa using hall
      simp [this]

/-- Claim C5 (witness): the amended theorem applied to `exC5_st` and the
concrete well-formed email `v@x.com`. -/
theorem reset_verify_constant_witness :
    (passwordResetRequest exC5_st "v@x.com").fst = ⟨200, resetSentMsg⟩ ∧
    (passwordResetRequest exC5_st "v@x.com").snd = exC5_st ∧
    (emailVerificationRequest exC5_st "v@x.com").fst.status = 200 ∧
    ((findByEmail exC5_st.users "v@x.com").all (fun u => !u.is_email_verified) = true →
      (emailVerificationRequest exC5_st "v@x.com").fst = ⟨200, verifySentMsg⟩) :=
  reset_request_constant_verify_request_status exC5_st "v@x.com" (by decide)

/-- Claim C6 (amended): every failed login — missing fields, unknown
email, wrong password, inactive account, blocked account — returns
status 401; unknown email, wrong password and inactive account all share
the one generic body, but a blocked account (correct password, active)
receives a distinct detail body, so the four causes are not fully
indistinguishable. -/
theorem login_failures_all_401 :
    (∀ st now e p s d, (login st now e p).fst = LoginResult.err s d → s = 401) ∧
    (∀ st now e p, e ≠ "" → p ≠ "" → findByEmail st.users e = none →
        (login st now e p).fst = LoginResult.err 401 loginMsgInvalid) ∧
    (∀ st now e p u, e ≠ "" → p ≠ "" → findByEmail st.users e = some u →
        checkPassword u p = false →
        (login st now e p).fst = LoginResult.err 401 loginMsgInvalid) ∧
    (∀ st now e p u, e ≠ "" → p ≠ "" → findByEmail st.users e = some u →
        u.is_active = false →
        (login st now e p).fst = LoginResult.err 401 loginMsgInvalid) ∧
    (∀ st now e p u, e ≠ "" → p ≠ "" → findByEmail st.users e = some u →
        checkPassword u p = true → u.is_active = true → u.is_blocked = true →
        (login st now e p).fst = LoginResult.err 401 loginMsgBlocked) ∧
    loginMsgBlocked ≠ loginMsgInvalid := by
  refine ⟨?_, ?_, ?_, ?_, ?_, by decide⟩
  · intro st now e p s d h
    unfold login at h
    split at h
    · injection h with hs hd; omega
    · split at h
      · injection h with hs hd; omega
      · split at h
        · injection h with hs hd; omega
        · split at h
          · injection h with hs hd; omega
          · simp at h
  · intro st now e p he hp hf
    have he' : (e == "") = false := by simp; exact he
    have hp' : (p == "") = false := by simp; exact hp
    simp [login, authenticate, he', hp', hf]
  · intro st now e p u he hp hf hc
    have he' : (e == "") = false := by simp; exact he
    have hp' : (p == "") = false := by simp; exact hp
    simp [login, authenticate, he', hp', hf, hc]
  · intro st now e p u he hp hf ha
    have he' : (e == "") = false := by simp; exact he
    have hp' : (p == "") = false := by simp; exact hp
    simp [login, authenticate, he', hp', hf, ha]
  · intro st now e p u he hp hf hc ha hb
    have he' : (e == "") = false := by simp; exact he
    have hp' : (p == "") = false := by simp; exact hp
    simp [login, authenticate, he', hp', hf, hc, ha, hb]

/-- Claim C6 (witness): the amended theorem applied to the blocked user
of `exC6_st` presenting the correct password. -/
theorem login_blocked_distinct_witness :
    (login exC6_st 0 "b@x.com" "Aa1!bbbb").fst = LoginResult.err 401 loginMsgBlocked :=
  login_failures_all_401.2.2.2.2.1 exC6_st 0 "b@x.com" "Aa1!bbbb" exC6_user
    (by decide) (by decide) (by decide) (by decide) (by decide) (by decide)

/-- Claim C7 (amended): each `admitKey` call keeps exactly the recorded
timestamps strictly newer than `now - time_window` (so a timestamp at
exactly `now - time_window` is also dropped), admits iff the kept count
is strictly below `max_requests`, and appends the current time only on
admission; concretely, with `max_requests = 5` and `time_window = 60`,
five calls within 60 seconds are admitted, the 6th is rejected, and a
call after the window has elapsed is admitted again. -/
theorem rate_limiter_sliding_window :
    (∀ rl now key,
        ((admitKey rl now key).fst = true ↔
          ((getReqs rl key).filter
              (fun t => now - (rl.time_window : Int) < t)).length < rl.max_requests) ∧
        getReqs (admitKey rl now key).snd key =
          (if ((getReqs rl key).filter
                (fun t => now - (rl.time_window : Int) < t)).length < rl.max_requests
           then ((getReqs rl key).filter
                (fun t => now - (rl.time_window : Int) < t)) ++ [now]
           else (getReqs rl key).filter
                (fun t => now - (rl.time_window : Int) < t))) ∧
    (runAdmits ⟨5, 60, []⟩ "k" [0, 10, 20, 30, 40, 50]).fst =
      [true, true, true, true, true, false] ∧
    (admitKey (runAdmits ⟨5, 60, []⟩ "k" [0, 10, 20, 30, 40, 50]).snd 111 "k").fst = true := by
  refine ⟨?_, by decide, by decide⟩
  intro rl now key
  by_cases h :
      ((getReqs rl key).filter
          (fun t => now - (rl.time_window : Int) < t)).length < rl.max_requests
  · have h' : ¬ rl.max_requests ≤
        ((getReqs rl key).filter
            (fun t => now - (rl.time_window : Int) < t)).length := Nat.not_le.mpr h
    constructor
    · simp [admitKey, is_rate_limited, h, h']
    · have hreq : (admitKey rl now key).snd.requests =
          setReqs rl.requests key
            ((getReqs rl key).filter (fun t => now - (rl.time_window : Int) < t) ++ [now]) := by
        simp [admitKey, is_rate_limited, h']
      rw [getReqs, hreq, lookup_setReqs]
      simp [h]
  · have h' : rl.max_requests ≤
        ((getReqs rl key).filter
            (fun t => now - (rl.time_window : Int) < t)).length := Nat.not_lt.mp h
    constructor
    · simp [admitKey, is_rate_limited, h, h']
    · have hreq : (admitKey rl now key).snd.requests =
          setReqs rl.requests key
            ((getReqs rl key).filter (fun t => now - (rl.time_window : Int) < t)) := by
        simp [admitKey, is_rate_limited, h']
      rw [getReqs, hreq, lookup_setReqs]
      simp [h]

/-- Claim C8 (amended): a MODERATOR fails the `IsAdmin` check and the
admin-gated update operation answers 403 without a state change; an ADMIN
passes; a blocked principal fails exactly the `IsNotBlocked` check, while
the `IsAdmin`, `IsActive`, `IsStaff` and `IsVerified` checks never
consult `is_blocked` and are unchanged by blocking. -/
theorem capability_checks_role_and_blocked_only :
    (∀ u : User,
      (u.role = Role.moderator → isAdminPerm u = false) ∧
      (u.role = Role.admin → isAdminPerm u = true) ∧
      (u.is_blocked = true → isNotBlockedPerm u = false) ∧
      isAdminPerm { u with is_blocked := true } = isAdminPerm u ∧
      isActivePerm { u with is_blocked := true } = isActivePerm u ∧
      isStaffPerm { u with is_blocked := true } = isStaffPerm u ∧
      isVerifiedPerm { u with is_blocked := true } = isVerifiedPerm u) ∧
    (∀ st aid tid inp actor,
      findById st.users aid = some actor → actor.role = Role.moderator →
      adminUpdate st aid tid inp = (⟨403, adminRequiredMsg⟩, st)) := by
  constructor
  · intro u
    refine ⟨?_, ?_, ?_, rfl, rfl, rfl, rfl⟩
    · intro h; simp [isAdminPerm, h]
    · intro h; simp [isAdminPerm, h]
    · intro h; simp [isNotBlockedPerm, h]
  · intro st aid tid inp actor hf hm
    have hadm : isAdminPerm actor = false := by simp [isAdminPerm, hm]
    simp [adminUpdate, hf, hadm]

/-- Claim C8 (witness): the amended theorem applied to the blocked admin
`exC8_user` and to the concrete moderator of `exC8m_st` attempting the
admin-gated update. -/
theorem capability_checks_witness :
    isAdminPerm exC8_user = true ∧
    isNotBlockedPerm exC8_user = false ∧
    adminUpdate exC8m_st 2 1 ⟨none, none, some true⟩ = (⟨403, adminRequiredMsg⟩, exC8m_st) :=
  ⟨(capability_checks_role_and_blocked_only.1 exC8_user).2.1 rfl,
   (capability_checks_role_and_blocked_only.1 exC8_user).2.2.1 rfl,
   capability_checks_role_and_blocked_only.2 exC8m_st 2 1 ⟨none, none, some true⟩
      exC8_mod (by decide) rfl⟩

end Auth
